import Mathlib

/-!
Verification of the AI-Study-buddy repository's specified core logic:
the client-local learning-state store (`frontend/hooks/use-learning-stats.ts`),
the login route and token middleware (`frontend/app/api/auth/login/route.ts`,
`frontend/lib/auth-middleware.ts`), the Gemini completion client with its
two-key fallback (`lib/gemini-client`), the signup route, and the client-local
chat-session store (`useChatHistory`).
-/

namespace StudyBuddy

/-! ## Client-local learning stats (`use-learning-stats.ts`) -/

/-- One bucket of `dailyProgress`: `{ day: string; accuracy: number; date: string }`. -/
structure DailyEntry where
  day : String
  accuracy : Nat
  date : String
deriving Repr, DecidableEq

/-- The `LearningStats` interface of `use-learning-stats.ts`. -/
structure LearningStats where
  questionsAsked : Nat
  topicsLearned : List String
  totalCorrect : Nat
  totalAttempts : Nat
  streakDays : Nat
  lastActiveDate : String
  dailyProgress : List DailyEntry
deriving Repr, DecidableEq

/-- `updateStreak` from `use-learning-stats.ts` (lines 80-102).  The strings
`today` and `yesterday` stand for the two date strings the code computes from
the clock; note the source's `currentStats.lastActiveDate ? 1 : 1` is `1` in
both branches. -/
def updateStreak (today yesterday : String) (currentStats : LearningStats) :
    LearningStats :=
  if currentStats.lastActiveDate = today then
    currentStats
  else if currentStats.lastActiveDate = yesterday then
    { currentStats with
        streakDays := currentStats.streakDays + 1
        lastActiveDate := today }
  else
    { currentStats with
        streakDays := 1
        lastActiveDate := today }

/-- `Math.round(num / den)` for non-negative rationals: round half away from
zero, i.e. `⌊num/den + 1/2⌋`. -/
def mathRound (num den : Nat) : Nat :=
  (2 * num + den) / (2 * den)

/-- JavaScript `array.slice(-n)`: keep the last `n` elements. -/
def sliceLast (n : Nat) (l : List DailyEntry) : List DailyEntry :=
  l.drop (l.length - n)

/-- `recordAnswer` from `use-learning-stats.ts` (lines 128-157).  `today` and
`dayName` stand for the date string and locale weekday the code computes from
the clock; `yesterday` feeds the embedded `updateStreak` call. -/
def recordAnswer (today dayName yesterday : String) (isCorrect : Bool)
    (prev : LearningStats) : LearningStats :=
  let updated := updateStreak today yesterday prev
  let newTotalCorrect := updated.totalCorrect + (if isCorrect then 1 else 0)
  let newTotalAttempts := updated.totalAttempts + 1
  let todayAccuracy :=
    if newTotalAttempts > 0 then mathRound (newTotalCorrect * 100) newTotalAttempts else 0
  let dailyProgress :=
    match updated.dailyProgress.findIdx? (fun d => d.date = today) with
    | some todayIndex =>
        updated.dailyProgress.set todayIndex
          { day := dayName, accuracy := todayAccuracy, date := today }
    | none =>
        sliceLast 7 (updated.dailyProgress ++
          [{ day := dayName, accuracy := todayAccuracy, date := today }])
  { updated with
      totalCorrect := newTotalCorrect
      totalAttempts := newTotalAttempts
      dailyProgress := dailyProgress }

/-- `avgAccuracy` from `use-learning-stats.ts` (lines 160-162). -/
def avgAccuracy (stats : LearningStats) : Nat :=
  if stats.totalAttempts > 0 then
    mathRound (stats.totalCorrect * 100) stats.totalAttempts
  else 0

/-! ## Session tokens and login (`lib/auth-middleware.ts`, `app/api/auth/login/route.ts`) -/

/-- A user document in the `users` collection; the login route reads
`user._id`, `user.name`, `user.email`, `user.password` (the bcrypt hash). -/
structure StoredUser where
  _id : String
  name : String
  email : String
  password : String
deriving Repr, DecidableEq

/-- The `AuthUser` interface of `auth-middleware.ts`: the token payload
`{id, name, email}`. -/
structure AuthUser where
  id : String
  name : String
  email : String
deriving Repr, DecidableEq

/-- Abstract model of a `jsonwebtoken` token: the payload together with the
secret it was signed with and whether it has expired.  `jwt.verify` succeeds
exactly when the verifying secret matches the signing secret and the token is
not expired. -/
structure Jwt where
  payload : AuthUser
  secret : String
  expired : Bool
deriving Repr, DecidableEq

/-- `jwt.sign(payload, secret, {expiresIn: "30d"})`: a fresh token is not
expired. -/
def jwtSign (payload : AuthUser) (secret : String) : Jwt :=
  { payload := payload, secret := secret, expired := false }

/-- `jwt.verify(token, secret)`: returns the payload on a valid signature and
unexpired token, otherwise throws (modelled as `none`). -/
def jwtVerify (token : Jwt) (secret : String) : Option AuthUser :=
  if token.secret = secret ∧ token.expired = false then some token.payload else none

/-- JavaScript `v || dflt` on an optional environment string: `undefined` and
the empty string are falsy. -/
def jsOrDefault (v : Option String) (dflt : String) : String :=
  match v with
  | some s => if s = "" then dflt else s
  | none => dflt

/-- `const JWT_SECRET = process.env.JWT_SECRET || "your-secret-key-change-in-production"`
as evaluated in `app/api/auth/login/route.ts` (line 5). -/
def loginRouteSecret (envSecret : Option String) : String :=
  jsOrDefault envSecret "your-secret-key-change-in-production"

/-- `const JWT_SECRET = process.env.JWT_SECRET || "your-secret-key-change-in-production"`
as evaluated in `lib/auth-middleware.ts` (line 3). -/
def middlewareSecret (envSecret : Option String) : String :=
  jsOrDefault envSecret "your-secret-key-change-in-production"

/-- Outcome of the login route: either an error response `(status, message)`
or the success body `{user, token}`. -/
inductive LoginResult where
  | error (status : Nat) (message : String)
  | ok (user : AuthUser) (token : Jwt)
deriving Repr, DecidableEq

/-- `POST` of `app/api/auth/login/route.ts` (lines 7-46).  `users` models the
`users` collection (`findOne({email})` is first exact-email match);
`bcryptCompare password hash` models `bcrypt.compare`. -/
def loginPOST (envSecret : Option String) (users : List StoredUser)
    (bcryptCompare : String → String → Bool) (email password : String) :
    LoginResult :=
  if email = "" ∨ password = "" then
    .error 400 "Email and password required"
  else
    match users.find? (fun u => u.email = email) with
    | none => .error 401 "Invalid email or password"
    | some user =>
        if bcryptCompare password user.password then
          let userData : AuthUser := { id := user._id, name := user.name, email := user.email }
          .ok userData (jwtSign userData (loginRouteSecret envSecret))
        else .error 401 "Invalid email or password"

/-- `verifyToken` of `lib/auth-middleware.ts` (lines 11-18). -/
def verifyToken (envSecret : Option String) (token : Jwt) : Option AuthUser :=
  jwtVerify token (middlewareSecret envSecret)

/-! ## Gemini completion client (`lib/gemini-client`) -/

/-- The two optional completion credentials, `process.env.GEMINI_API_KEY_1`
and `process.env.GEMINI_API_KEY_2` (compare `lib/config.ts`). -/
structure GeminiEnv where
  primaryKey : Option String
  secondaryKey : Option String
deriving Repr, DecidableEq

/-- JavaScript truthiness of an optional environment string: `undefined` and
`""` are falsy. -/
def jsTruthy : Option String → Bool
  | some s => !(s == "")
  | none => false

/-- `initializeClients` of `lib/gemini-client` (lines 6-21): set `client1`
from `GEMINI_API_KEY_1` when truthy, `client2` from `GEMINI_API_KEY_2` when
truthy, and throw `"No Gemini API keys configured"` when neither key is
configured.  A `GoogleGenerativeAI` client is represented by the credential it
was constructed with; the result is the `(client1, client2)` pair. -/
def initializeClients (env : GeminiEnv) :
    Except String (Option String × Option String) :=
  let client1 := if jsTruthy env.primaryKey then env.primaryKey else none
  let client2 := if jsTruthy env.secondaryKey then env.secondaryKey else none
  if !jsTruthy env.primaryKey && !jsTruthy env.secondaryKey then
    .error "No Gemini API keys configured"
  else
    .ok (client1, client2)

/-- `getGeminiClient(useSecondary)` of `lib/gemini-client` (lines 23-34):
lazily initialize (the clients are module state, so a request that finds both
null re-runs `initializeClients`), return `client2` when asked for the
secondary and it exists, else `client1 || client2` — so with no secondary key
the "secondary" request falls back to the primary client. -/
def getGeminiClient (env : GeminiEnv) (useSecondary : Bool) :
    Except String (Option String) :=
  match initializeClients env with
  | .error e => .error e
  | .ok (client1, client2) =>
      if useSecondary && client2.isSome then .ok client2
      else .ok (client1 <|> client2)

/-- `getGeminiModel(useSecondary)` of `lib/gemini-client` (lines 36-43): throw
`"Gemini client not initialized"` when the selected client is null (dead after
a successful `initializeClients`, which guarantees at least one client); the
model is identified by its client's credential. -/
def getGeminiModel (env : GeminiEnv) (useSecondary : Bool) :
    Except String String :=
  match getGeminiClient env useSecondary with
  | .error e => .error e
  | .ok none => .error "Gemini client not initialized"
  | .ok (some key) => .ok key

/-- `sendMessageWithFallback` of `lib/gemini-client` (lines 45-91).
`call n key message` is the outcome of the `n`-th network completion attempt (0 = the
first `try` block, 1 = the second), issued with credential `key`; the two
attempts are independent.  The returned list is the ordered trace of
credentials actually sent a network request.  The source's
`if (!model) throw new Error("No secondary API key available")` is dead code
(`getGeminiModel` throws instead of returning null), and the final throw
interpolates `lastError`, which on every path to it was overwritten by the
second `catch`, so only the second failure is named. -/
def sendMessageWithFallback (env : GeminiEnv)
    (call : Nat → String → String → Except String String) (message : String) :
    Except String String × List String :=
  match getGeminiModel env false with
  | .ok k1 =>
    match call 0 k1 message with
    | .ok text => (.ok text, [k1])
    | .error _e1 =>
      match getGeminiModel env true with
      | .ok k2 =>
        match call 1 k2 message with
        | .ok text => (.ok text, [k1, k2])
        | .error e2 =>
            (.error (String.append "Failed with both Gemini API keys: " e2),
             [k1, k2])
      | .error e2 =>
          (.error (String.append "Failed with both Gemini API keys: " e2),
           [k1])
  | .error _e1 =>
    match getGeminiModel env true with
    | .ok k2 =>
      match call 1 k2 message with
      | .ok text => (.ok text, [k2])
      | .error e2 =>
          (.error (String.append "Failed with both Gemini API keys: " e2),
           [k2])
    | .error e2 =>
        (.error (String.append "Failed with both Gemini API keys: " e2), [])

/-! ## Signup route (`POST /api/auth/signup`) -/

/-- The success body of the signup route:
`Response.json({success: true, user, message: "Account created successfully"})`.
The JSON object carries no `token` key; the absent key is modelled as
`token := none`. -/
structure SignupBody where
  success : Bool
  user : AuthUser
  message : String
  token : Option String
deriving Repr, DecidableEq

/-- Outcome of the signup route: an error response `(status, message)` or the
success body. -/
inductive SignupResult where
  | error (status : Nat) (message : String)
  | ok (body : SignupBody)
deriving Repr, DecidableEq

/-- `POST` of the signup route (lines 4-59): `400` on a missing field, `400`
`"User already exists"` on a duplicate email (first exact-email match),
otherwise insert the user (password hashed by `hash`, store-assigned id
`newId`) and respond `{success: true, user: {id, name, email}, message}` —
with no token.  Returns the response together with the updated `users`
collection; the zero-initialized `userStats` insert touches a separate
collection and is not modelled. -/
def signupPOST (users : List StoredUser) (hash : String → String)
    (newId : String) (name email password : String) :
    SignupResult × List StoredUser :=
  if name = "" ∨ email = "" ∨ password = "" then
    (.error 400 "Missing required fields", users)
  else
    match users.find? (fun u => u.email = email) with
    | some _ => (.error 400 "User already exists", users)
    | none =>
        let newUser : StoredUser :=
          { _id := newId, name := name, email := email,
            password := hash password }
        (.ok { success := true,
               user := { id := newId, name := name, email := email },
               message := "Account created successfully",
               token := none },
         users ++ [newUser])

/-! ## Chat-session store (`useChatHistory`) -/

/-- A chat message as in the `ChatMessage` interface of the session store. -/
structure ChatMessage where
  id : String
  role : String
  content : String
  timestamp : String
deriving Repr, DecidableEq

/-- A chat session as in the `ChatSession` interface of the session store. -/
structure ChatSession where
  id : String
  title : String
  messages : List ChatMessage
  createdAt : String
  updatedAt : String
deriving Repr, DecidableEq

/-- `const MAX_SESSIONS = 50` of the session store. -/
def MAX_SESSIONS : Nat := 50

/-- `createSession` of the session store (lines 79-95): build a fresh empty
session — id `Date.now().toString()`, title `"New Chat"`, ISO timestamps —
prepend it and cap with `slice(0, MAX_SESSIONS)`.  `now` stands for the
clock-derived id/timestamp strings of this call. -/
def createSession (now : String) (prev : List ChatSession) :
    List ChatSession :=
  let newSession : ChatSession :=
    { id := now, title := "New Chat", messages := [],
      createdAt := now, updatedAt := now }
  (newSession :: prev).take MAX_SESSIONS

/-- `n` sequential `createSession` calls starting from the empty list, the
`i`-th call made at clock value `i`. -/
def createMany (n : Nat) : List ChatSession :=
  (List.range n).foldl (fun acc t => createSession (toString t) acc) []

/-! ## Helper lemmas -/

theorem updateStreak_of_today (today yesterday : String) (s : LearningStats)
    (h : s.lastActiveDate = today) : updateStreak today yesterday s = s := by
  unfold updateStreak
  simp [h]

theorem updateStreak_lastActiveDate (today yesterday : String)
    (s : LearningStats) : (updateStreak today yesterday s).lastActiveDate = today := by
  unfold updateStreak
  split_ifs with h1 h2 <;> simp_all

theorem updateStreak_dailyProgress (today yesterday : String)
    (s : LearningStats) : (updateStreak today yesterday s).dailyProgress = s.dailyProgress := by
  unfold updateStreak
  split_ifs <;> rfl

theorem updateStreak_totalCorrect (today yesterday : String)
    (s : LearningStats) : (updateStreak today yesterday s).totalCorrect = s.totalCorrect := by
  unfold updateStreak
  split_ifs <;> rfl

theorem updateStreak_totalAttempts (today yesterday : String)
    (s : LearningStats) : (updateStreak today yesterday s).totalAttempts = s.totalAttempts := by
  unfold updateStreak
  split_ifs <;> rfl

/-! ## C4: streak transition -/

/-- C4: the record-activity streak transition: if `lastActiveDate` is already
today the stats are unchanged; if it is yesterday the streak grows by exactly
one and the date moves to today; otherwise (gap of two or more days, or no
prior activity) the streak resets to one and the date moves to today; and the
transition is idempotent within a single calendar day. -/
theorem updateStreak_streak_transition (today yesterday : String)
    (s : LearningStats) :
    (s.lastActiveDate = today → updateStreak today yesterday s = s) ∧
    (s.lastActiveDate ≠ today → s.lastActiveDate = yesterday →
      updateStreak today yesterday s =
        { s with streakDays := s.streakDays + 1, lastActiveDate := today }) ∧
    (s.lastActiveDate ≠ today → s.lastActiveDate ≠ yesterday →
      updateStreak today yesterday s =
        { s with streakDays := 1, lastActiveDate := today }) ∧
    updateStreak today yesterday (updateStreak today yesterday s) =
      updateStreak today yesterday s := by
  refine ⟨fun h => updateStreak_of_today today yesterday s h, ?_, ?_, ?_⟩
  · intro h1 h2
    unfold updateStreak
    rw [if_neg h1, if_pos h2]
  · intro h1 h2
    unfold updateStreak
    rw [if_neg h1, if_neg h2]
  · exact updateStreak_of_today today yesterday _
      (updateStreak_lastActiveDate today yesterday s)

/-- Concrete instance of the C4 theorem: a user whose last activity was
yesterday gains exactly one streak day. -/
theorem updateStreak_streak_transition_witness :
    updateStreak "2026-10-11" "2026-10-10"
        { questionsAsked := 4, topicsLearned := ["algebra"], totalCorrect := 3,
          totalAttempts := 5, streakDays := 2, lastActiveDate := "2026-10-10",
          dailyProgress := [] } =
      { questionsAsked := 4, topicsLearned := ["algebra"], totalCorrect := 3,
        totalAttempts := 5, streakDays := 3, lastActiveDate := "2026-10-11",
        dailyProgress := [] } :=
  (updateStreak_streak_transition "2026-10-11" "2026-10-10" _).2.1
    (by decide) rfl

/-! ## C5: login is indistinguishable for unknown email vs. wrong password -/

/-- C5: an attempt with an email that matches no user record and an attempt
with an existing email but a failing password comparison produce identical
responses: the same 401 status with the same generic
"Invalid email or password" message. -/
theorem login_unknown_vs_wrong_password_indistinguishable
    (env1 env2 : Option String)
    (users1 users2 : List StoredUser)
    (cmp1 cmp2 : String → String → Bool)
    (email1 pw1 email2 pw2 : String) (u : StoredUser)
    (he1 : email1 ≠ "") (hp1 : pw1 ≠ "")
    (he2 : email2 ≠ "") (hp2 : pw2 ≠ "")
    (hnone : users1.find? (fun v => v.email = email1) = none)
    (hsome : users2.find? (fun v => v.email = email2) = some u)
    (hbad : cmp2 pw2 u.password = false) :
    loginPOST env1 users1 cmp1 email1 pw1 =
      loginPOST env2 users2 cmp2 email2 pw2 ∧
    loginPOST env1 users1 cmp1 email1 pw1 =
      .error 401 "Invalid email or password" := by
  have h1 : loginPOST env1 users1 cmp1 email1 pw1 =
      .error 401 "Invalid email or password" := by
    unfold loginPOST
    simp [he1, hp1, hnone]
  have h2 : loginPOST env2 users2 cmp2 email2 pw2 =
      .error 401 "Invalid email or password" := by
    unfold loginPOST
    simp [he2, hp2, hsome, hbad]
  exact ⟨h1.trans h2.symm, h1⟩

/-- A concrete registered user for the login instances. -/
def anaUser : StoredUser :=
  { _id := "1", name := "Ana", email := "ana@x.com", password := "hash" }

/-- Concrete instance of the C5 theorem: logging in with an unregistered email
and logging in with Ana's email but a wrong password yield the same response. -/
theorem login_unknown_vs_wrong_password_indistinguishable_witness :
    loginPOST none [] (fun _ _ => false) "bob@x.com" "pw" =
      loginPOST none [anaUser] (fun _ _ => false) "ana@x.com" "wrong" ∧
    loginPOST none [] (fun _ _ => false) "bob@x.com" "pw" =
      .error 401 "Invalid email or password" :=
  login_unknown_vs_wrong_password_indistinguishable none none [] [anaUser]
    (fun _ _ => false) (fun _ _ => false) "bob@x.com" "pw" "ana@x.com" "wrong"
    anaUser (by decide) (by decide) (by decide) (by decide) rfl
    (by simp [anaUser, List.find?]) rfl

/-! ## C8 / C9: `recordAnswer` daily-progress facts -/

/-- The lifetime totals after one recorded answer. -/
def newTotals (isCorrect : Bool) (prev : LearningStats) : Nat × Nat :=
  (prev.totalCorrect + (if isCorrect then 1 else 0), prev.totalAttempts + 1)

/-- The daily-progress entry `recordAnswer` writes for the current day. -/
def todayEntry (today dayName : String) (isCorrect : Bool)
    (prev : LearningStats) : DailyEntry :=
  { day := dayName,
    accuracy := mathRound ((newTotals isCorrect prev).1 * 100)
      (newTotals isCorrect prev).2,
    date := today }

theorem recordAnswer_totals (today dayName yesterday : String)
    (isCorrect : Bool) (prev : LearningStats) :
    (recordAnswer today dayName yesterday isCorrect prev).totalCorrect =
        (newTotals isCorrect prev).1 ∧
    (recordAnswer today dayName yesterday isCorrect prev).totalAttempts =
        (newTotals isCorrect prev).2 := by
  unfold recordAnswer newTotals
  constructor <;>
    simp only [updateStreak_totalCorrect, updateStreak_totalAttempts]

theorem recordAnswer_dailyProgress_eq (today dayName yesterday : String)
    (isCorrect : Bool) (prev : LearningStats) :
    (recordAnswer today dayName yesterday isCorrect prev).dailyProgress =
      match prev.dailyProgress.findIdx? (fun d => d.date = today) with
      | some i =>
          prev.dailyProgress.set i (todayEntry today dayName isCorrect prev)
      | none =>
          sliceLast 7
            (prev.dailyProgress ++ [todayEntry today dayName isCorrect prev]) := by
  unfold recordAnswer todayEntry newTotals
  simp only [updateStreak_dailyProgress, updateStreak_totalCorrect,
    updateStreak_totalAttempts, gt_iff_lt, Nat.succ_pos, if_true]

theorem list_set_getElem_self {α : Type} (m : List α) (j : Nat)
    (h : j < m.length) : m.set j m[j] = m := by
  apply List.ext_getElem?
  intro n
  rw [List.getElem?_set]
  split
  · rename_i hj
    subst hj
    simp [h]
  · rfl

theorem findIdx?_some_elem {α : Type} (l : List α) (p : α → Bool) (i : Nat)
    (h : l.findIdx? p = some i) :
    ∃ hi : i < l.length, p (l.get ⟨i, hi⟩) = true := by
  obtain ⟨hi, hidx⟩ := List.findIdx?_eq_some_iff_findIdx_eq.mp h
  have hw : l.findIdx p < l.length := by omega
  have hp := @List.findIdx_getElem _ p l hw
  refine ⟨hi, ?_⟩
  have hsame : l[l.findIdx p] = l[i] := by congr 1
  rw [hsame] at hp
  exact hp

/-- The invariant of the spec: at most 7 buckets, pairwise distinct dates. -/
def DailyProgressInv (l : List DailyEntry) : Prop :=
  l.length ≤ 7 ∧ (l.map (fun d => d.date)).Nodup

/-- C8: `recordAnswer` preserves the daily-progress invariant — never more
than 7 entries and no two entries with the same date — replacing the day's
bucket in place when today's date is already present and otherwise appending
it with the list capped to the most recent 7 entries. -/
theorem recordAnswer_dailyProgress_invariant (today dayName yesterday : String)
    (isCorrect : Bool) (prev : LearningStats)
    (h : DailyProgressInv prev.dailyProgress) :
    DailyProgressInv
      (recordAnswer today dayName yesterday isCorrect prev).dailyProgress := by
  obtain ⟨hlen, hnodup⟩ := h
  rw [recordAnswer_dailyProgress_eq]
  cases hfind : prev.dailyProgress.findIdx? (fun d => d.date = today) with
  | some i =>
    obtain ⟨hi, hp⟩ := findIdx?_some_elem _ _ _ hfind
    have hdate : (prev.dailyProgress.get ⟨i, hi⟩).date = today := by
      simpa using hp
    constructor
    · rw [List.length_set]
      exact hlen
    · rw [List.map_set]
      have hi' : i < (prev.dailyProgress.map (fun d => d.date)).length := by
        simpa using hi
      have hval : (prev.dailyProgress.map (fun d => d.date))[i] =
          (todayEntry today dayName isCorrect prev).date := by
        simp [List.getElem_map, todayEntry]
        rw [← hdate]
        rfl
      rw [← hval, list_set_getElem_self _ _ hi']
      exact hnodup
  | none =>
    have hfresh : ∀ d ∈ prev.dailyProgress, d.date ≠ today := by
      intro d hd
      have := List.findIdx?_eq_none_iff.mp hfind d hd
      simpa using this
    constructor
    · unfold sliceLast
      rw [List.length_drop]
      omega
    · unfold sliceLast
      have hsub : ((prev.dailyProgress ++
            [todayEntry today dayName isCorrect prev]).drop
              ((prev.dailyProgress ++
                [todayEntry today dayName isCorrect prev]).length - 7)).map
            (fun d => d.date) |>.Sublist
          ((prev.dailyProgress ++
            [todayEntry today dayName isCorrect prev]).map (fun d => d.date)) :=
        (List.drop_sublist _ _).map _
      refine hsub.nodup ?_
      rw [List.map_append]
      rw [List.nodup_append]
      refine ⟨hnodup, List.nodup_singleton _, ?_⟩
      intro x hx hx'
      simp only [List.map_cons, List.map_nil, List.mem_singleton] at hx'
      obtain ⟨d, hd, rfl⟩ := List.mem_map.mp hx
      exact hfresh d hd (hx' ▸ rfl)

/-- Concrete instance of the C8 theorem: recording an answer on a fresh day
with a full week of history keeps 7 buckets with pairwise-distinct dates. -/
theorem recordAnswer_dailyProgress_invariant_witness :
    DailyProgressInv
      (recordAnswer "2026-10-11" "Sun" "2026-10-10" true
        { questionsAsked := 9, topicsLearned := [], totalCorrect := 5,
          totalAttempts := 8, streakDays := 6, lastActiveDate := "2026-10-10",
          dailyProgress :=
            [{ day := "Mon", accuracy := 50, date := "2026-10-04" },
             { day := "Tue", accuracy := 60, date := "2026-10-05" },
             { day := "Wed", accuracy := 60, date := "2026-10-06" },
             { day := "Thu", accuracy := 55, date := "2026-10-07" },
             { day := "Fri", accuracy := 58, date := "2026-10-08" },
             { day := "Sat", accuracy := 60, date := "2026-10-09" },
             { day := "Sun", accuracy := 62, date := "2026-10-10" }] }).dailyProgress :=
  recordAnswer_dailyProgress_invariant "2026-10-11" "Sun" "2026-10-10" true _
    (by constructor <;> decide)

/-- C9: the accuracy `recordAnswer` stores in the day's bucket is the lifetime
cumulative accuracy `round(100 * total_correct / total_attempts)` over the
all-time totals at the moment of the call — identical to `avgAccuracy` of the
resulting state and built from the previous state's all-time totals, not from
that day's answers alone. -/
theorem recordAnswer_accuracy_is_lifetime (today dayName yesterday : String)
    (isCorrect : Bool) (prev : LearningStats) :
    todayEntry today dayName isCorrect prev ∈
      (recordAnswer today dayName yesterday isCorrect prev).dailyProgress ∧
    (todayEntry today dayName isCorrect prev).accuracy =
      avgAccuracy (recordAnswer today dayName yesterday isCorrect prev) ∧
    (todayEntry today dayName isCorrect prev).accuracy =
      mathRound ((prev.totalCorrect + (if isCorrect then 1 else 0)) * 100)
        (prev.totalAttempts + 1) := by
  refine ⟨?_, ?_, rfl⟩
  · rw [recordAnswer_dailyProgress_eq]
    cases hfind : prev.dailyProgress.findIdx? (fun d => d.date = today) with
    | some i =>
      obtain ⟨hi, -⟩ := findIdx?_some_elem _ _ _ hfind
      exact List.mem_set prev.dailyProgress i hi _
    | none =>
      unfold sliceLast
      have hk : (prev.dailyProgress ++
          [todayEntry today dayName isCorrect prev]).length - 7 ≤
          prev.dailyProgress.length := by
        simp only [List.length_append, List.length_cons, List.length_nil]
        omega
      rw [List.drop_append_of_le_length hk]
      exact List.mem_append_right _ (List.mem_singleton.mpr rfl)
  · obtain ⟨hc, ha⟩ := recordAnswer_totals today dayName yesterday isCorrect prev
    unfold avgAccuracy
    rw [hc, ha]
    simp [newTotals, todayEntry, Nat.succ_pos]

/-! ## C7: session cap and eviction (`useChatHistory.createSession`) -/

/-- C7: the session list never exceeds 50 sessions, and after 51 sequential
`createSession` calls starting from the empty list exactly 50 sessions are
retained, the first-created session (clock value 0) is gone, and every
later-created session is still present. -/
theorem createSession_cap_evicts_oldest :
    (∀ (now : String) (prev : List ChatSession),
        (createSession now prev).length ≤ 50) ∧
    (createMany 51).length = 50 ∧
    (∀ s ∈ createMany 51, s.id ≠ "0") ∧
    (∀ i ∈ List.range 51, 1 ≤ i →
        ∃ s ∈ createMany 51, s.id = toString i) := by
  refine ⟨?_, by decide, by decide, by decide⟩
  intro now prev
  simp only [createSession, MAX_SESSIONS]
  rw [List.length_take]
  exact Nat.min_le_left _ _

/-- Concrete instance of the C7 theorem: the second-created session is still
retained after the 51 calls. -/
theorem createSession_cap_evicts_oldest_witness :
    ∃ s ∈ createMany 51, s.id = toString 1 :=
  createSession_cap_evicts_oldest.2.2.2 1 (by decide) (by decide)

/-! ## C6: zero credentials fail construction (`initializeClients`) -/

/-- C6: with zero completion credentials configured, client construction
(`initializeClients`, run lazily on first use) fails at once with the
configuration error "No Gemini API keys configured" — never a silent no-op —
and this failure precedes any completion attempt: `sendMessageWithFallback`
issues no network attempt at all (empty trace) and surfaces the wrapped
configuration error. -/
theorem getGeminiClient_no_credentials_fails_fast :
    initializeClients { primaryKey := none, secondaryKey := none } =
      .error "No Gemini API keys configured" ∧
    (∀ b, getGeminiClient { primaryKey := none, secondaryKey := none } b =
      .error "No Gemini API keys configured") ∧
    (∀ (call : Nat → String → String → Except String String)
       (message : String),
      sendMessageWithFallback { primaryKey := none, secondaryKey := none }
          call message =
        (.error
          "Failed with both Gemini API keys: No Gemini API keys configured",
         [])) :=
  ⟨rfl, fun _ => rfl, fun _ _ => rfl⟩

/-- Concrete instance of the C6 theorem: with no credentials, the chat request
fails with the wrapped configuration error and attempts nothing. -/
theorem getGeminiClient_no_credentials_fails_fast_witness :
    sendMessageWithFallback { primaryKey := none, secondaryKey := none }
        (fun _ _ _ => .ok "text") "hi" =
      (.error
        "Failed with both Gemini API keys: No Gemini API keys configured",
       []) :=
  getGeminiClient_no_credentials_fails_fast.2.2 (fun _ _ _ => .ok "text") "hi"

/-! ## C1: primary/secondary fallback contract (`sendMessageWithFallback`) -/

theorem getGeminiModel_primary (k1 : String) (sec : Option String)
    (hk1 : k1 ≠ "") :
    getGeminiModel { primaryKey := some k1, secondaryKey := sec } false =
      .ok k1 := by
  have hbe : (k1 == "") = false := beq_eq_false_iff_ne.mpr hk1
  cases sec <;>
    simp [getGeminiModel, getGeminiClient, initializeClients, jsTruthy, hbe,
      Option.orElse]

theorem getGeminiModel_secondary_of_some (k1 k2 : String) (hk2 : k2 ≠ "") :
    getGeminiModel { primaryKey := some k1, secondaryKey := some k2 } true =
      .ok k2 := by
  have hbe : (k2 == "") = false := beq_eq_false_iff_ne.mpr hk2
  simp [getGeminiModel, getGeminiClient, initializeClients, jsTruthy, hbe]

theorem getGeminiModel_secondary_of_none (k1 : String) (hk1 : k1 ≠ "") :
    getGeminiModel { primaryKey := some k1, secondaryKey := none } true =
      .ok k1 := by
  have hbe : (k1 == "") = false := beq_eq_false_iff_ne.mpr hk1
  simp [getGeminiModel, getGeminiClient, initializeClients, jsTruthy, hbe,
    Option.orElse]

/-- C1 counterexample: with only the primary credential configured and a
failing first attempt, the code issues a second completion attempt re-using
the primary credential (`getGeminiClient(true)` returns `client1 || client2`):
the attempt trace is `["key1", "key1"]`, and the retry can even succeed —
contradicting "fails without issuing any second completion attempt (never
re-attempts the call using the primary credential)". -/
theorem sendMessageWithFallback_retries_primary_counterexample :
    sendMessageWithFallback { primaryKey := some "key1", secondaryKey := none }
        (fun _ _ _ => .error "boom") "hi" =
      (.error "Failed with both Gemini API keys: boom", ["key1", "key1"]) ∧
    sendMessageWithFallback { primaryKey := some "key1", secondaryKey := none }
        (fun n _ _ => if n == 0 then .error "boom" else .ok "retry text")
        "hi" =
      (.ok "retry text", ["key1", "key1"]) :=
  ⟨rfl, rfl⟩

/-- C1 (amended): with a non-empty primary credential, `complete` returns the
primary result whenever the first attempt succeeds — one attempt, regardless
of the secondary credential; when the first attempt fails and a non-empty
secondary credential is configured, the single retry uses the secondary
credential and its outcome decides the result; but when the first attempt
fails and no secondary credential is configured, the code issues one further
completion attempt re-using the primary credential, returning its result on
success and failing otherwise. -/
theorem sendMessageWithFallback_fallback_contract (k1 : String)
    (secondaryKey : Option String)
    (call : Nat → String → String → Except String String) (message : String)
    (hk1 : k1 ≠ "") :
    (∀ text, call 0 k1 message = .ok text →
      sendMessageWithFallback
          { primaryKey := some k1, secondaryKey := secondaryKey }
          call message = (.ok text, [k1])) ∧
    (∀ k2 e1, secondaryKey = some k2 → k2 ≠ "" →
      call 0 k1 message = .error e1 →
      sendMessageWithFallback
          { primaryKey := some k1, secondaryKey := secondaryKey }
          call message =
        (match call 1 k2 message with
         | .ok text => (.ok text, [k1, k2])
         | .error e2 =>
             (.error (String.append "Failed with both Gemini API keys: " e2),
              [k1, k2]))) ∧
    (∀ e1, secondaryKey = none → call 0 k1 message = .error e1 →
      sendMessageWithFallback
          { primaryKey := some k1, secondaryKey := secondaryKey }
          call message =
        (match call 1 k1 message with
         | .ok text => (.ok text, [k1, k1])
         | .error e2 =>
             (.error (String.append "Failed with both Gemini API keys: " e2),
              [k1, k1]))) := by
  refine ⟨?_, ?_, ?_⟩
  · intro text hok
    unfold sendMessageWithFallback
    simp only [getGeminiModel_primary k1 secondaryKey hk1, hok]
  · intro k2 e1 hsec hk2 herr
    subst hsec
    unfold sendMessageWithFallback
    simp only [getGeminiModel_primary k1 _ hk1, herr,
      getGeminiModel_secondary_of_some k1 k2 hk2]
  · intro e1 hsec herr
    subst hsec
    unfold sendMessageWithFallback
    simp only [getGeminiModel_primary k1 _ hk1, herr,
      getGeminiModel_secondary_of_none k1 hk1]

/-- Concrete instance of the C1 theorem: the primary call succeeds, so the
primary text is returned with a single attempt even though a secondary
credential is configured. -/
theorem sendMessageWithFallback_fallback_contract_witness :
    sendMessageWithFallback
        { primaryKey := some "key1", secondaryKey := some "key2" }
        (fun _ _ _ => .ok "primary text") "hi" =
      (.ok "primary text", ["key1"]) :=
  (sendMessageWithFallback_fallback_contract "key1" (some "key2")
    (fun _ _ _ => .ok "primary text") "hi" (by decide)).1 "primary text" rfl

/-! ## C2: error on total failure names only the last cause -/

/-- C2 counterexample: both credentials fail; two runs that differ only in the
primary failure's message surface the identical single error, which names only
the secondary failure — so the primary cause is not carried in the surfaced
error, contradicting "both causes are carried ... not just one of them". -/
theorem sendMessageWithFallback_drops_primary_cause_counterexample :
    sendMessageWithFallback
        { primaryKey := some "key1", secondaryKey := some "key2" }
        (fun _ k _ =>
          .error (if k == "key1" then "primary cause A" else "secondary cause"))
        "hi" =
      (.error "Failed with both Gemini API keys: secondary cause",
       ["key1", "key2"]) ∧
    sendMessageWithFallback
        { primaryKey := some "key1", secondaryKey := some "key2" }
        (fun _ k _ =>
          .error (if k == "key1" then "primary cause B" else "secondary cause"))
        "hi" =
      (.error "Failed with both Gemini API keys: secondary cause",
       ["key1", "key2"]) :=
  ⟨rfl, rfl⟩

/-- C2 (amended): when both completion attempts fail — or the only configured
credential fails twice — `complete` fails with the single error
`"Failed with both Gemini API keys: <second failure>"`, naming only the second
attempt's failure; the first cause is logged to the console but not carried in
the surfaced error. -/
theorem sendMessageWithFallback_last_error_only (k1 : String)
    (call : Nat → String → String → Except String String)
    (message e1 : String) (hk1 : k1 ≠ "") :
    (∀ k2 e2, k2 ≠ "" → call 0 k1 message = .error e1 →
      call 1 k2 message = .error e2 →
      sendMessageWithFallback { primaryKey := some k1, secondaryKey := some k2 }
          call message =
        (.error (String.append "Failed with both Gemini API keys: " e2),
         [k1, k2])) ∧
    (∀ e2, call 0 k1 message = .error e1 → call 1 k1 message = .error e2 →
      sendMessageWithFallback { primaryKey := some k1, secondaryKey := none }
          call message =
        (.error (String.append "Failed with both Gemini API keys: " e2),
         [k1, k1])) := by
  constructor
  · intro k2 e2 hk2 h1 h2
    unfold sendMessageWithFallback
    simp only [getGeminiModel_primary k1 _ hk1, h1,
      getGeminiModel_secondary_of_some k1 k2 hk2, h2]
  · intro e2 h1 h2
    unfold sendMessageWithFallback
    simp only [getGeminiModel_primary k1 _ hk1, h1,
      getGeminiModel_secondary_of_none k1 hk1, h2]

/-- Concrete instance of the C2 theorem: both keys hit their quota and the
surfaced error names the secondary failure. -/
theorem sendMessageWithFallback_last_error_only_witness :
    sendMessageWithFallback
        { primaryKey := some "key1", secondaryKey := some "key2" }
        (fun _ k _ => .error (String.append k " quota exceeded")) "hi" =
      (.error "Failed with both Gemini API keys: key2 quota exceeded",
       ["key1", "key2"]) :=
  (sendMessageWithFallback_last_error_only "key1"
    (fun _ k _ => .error (String.append k " quota exceeded")) "hi"
    "key1 quota exceeded" (by decide)).1 "key2" "key2 quota exceeded"
    (by decide) rfl rfl

/-! ## C3: valid signup succeeds — without a token -/

/-- C3 counterexample: the concrete valid signup of Ana succeeds, but the
response body has `token := none` — no token is contained in the response, so
the claim as stated is false of the program; a duplicate email is likewise
rejected with status 400 ("User already exists"). -/
theorem signupPOST_no_token_counterexample :
    (signupPOST [] (fun p => p) "42" "Ana" "ana@x.com" "secret1").1 =
      SignupResult.ok
        { success := true,
          user := { id := "42", name := "Ana", email := "ana@x.com" },
          message := "Account created successfully", token := none } ∧
    (signupPOST [StoredUser.mk "41" "Ana" "ana@x.com" "h"] (fun p => p) "42"
        "Ana" "ana@x.com" "secret1").1 =
      SignupResult.error 400 "User already exists" :=
  ⟨rfl, rfl⟩

/-- C3 (amended): for every signup request with non-empty name, email and
password whose email is not already registered, the signup route succeeds and
its response carries the created user's public fields `{id, name, email}` and
a success message — but no token (the response has no token field; per the
auth documentation the client is redirected to the login page to obtain
one). -/
theorem signupPOST_valid_request_succeeds (users : List StoredUser)
    (hash : String → String) (newId name email password : String)
    (hn : name ≠ "") (he : email ≠ "") (hp : password ≠ "")
    (hfresh : users.find? (fun u => u.email = email) = none) :
    signupPOST users hash newId name email password =
      (.ok { success := true,
             user := { id := newId, name := name, email := email },
             message := "Account created successfully",
             token := none },
       users ++ [StoredUser.mk newId name email (hash password)]) := by
  unfold signupPOST
  simp [hn, he, hp, hfresh]

/-- Concrete instance of the C3 theorem: Ana signs up with a fresh email and
receives her public fields and the success message. -/
theorem signupPOST_valid_request_succeeds_witness :
    signupPOST [] (fun p => String.append "hashed-" p) "42" "Ana" "ana@x.com"
        "secret1" =
      (.ok { success := true,
             user := { id := "42", name := "Ana", email := "ana@x.com" },
             message := "Account created successfully",
             token := none },
       [StoredUser.mk "42" "Ana" "ana@x.com"
          (String.append "hashed-" "secret1")]) :=
  signupPOST_valid_request_succeeds [] (fun p => String.append "hashed-" p)
    "42" "Ana" "ana@x.com" "secret1" (by decide) (by decide) (by decide) rfl

/-! ## C10: missing signing secret falls back to one shared default -/

/-- C10: when the signing-secret environment variable is absent, the login
route and the verification middleware fall back to the same fixed built-in
default secret, so every token the login route issues under the missing-secret
configuration is accepted by `verifyToken` under that same configuration. -/
theorem missing_secret_sign_verify_roundtrip :
    loginRouteSecret none = "your-secret-key-change-in-production" ∧
    middlewareSecret none = "your-secret-key-change-in-production" ∧
    ∀ (users : List StoredUser) (cmp : String → String → Bool)
      (email password : String) (u : AuthUser) (t : Jwt),
      loginPOST none users cmp email password = .ok u t →
      verifyToken none t = some u := by
  refine ⟨rfl, rfl, ?_⟩
  intro users cmp email password u t hok
  unfold loginPOST at hok
  by_cases hempty : email = "" ∨ password = ""
  · rw [if_pos hempty] at hok
    cases hok
  · rw [if_neg hempty] at hok
    cases hfind : users.find? (fun v => v.email = email) with
    | none =>
      rw [hfind] at hok
      cases hok
    | some user =>
      rw [hfind] at hok
      dsimp only at hok
      split_ifs at hok with hcmp
      cases hok
      unfold verifyToken jwtVerify jwtSign middlewareSecret loginRouteSecret
        jsOrDefault
      simp

/-- Concrete instance of the C10 theorem: with no secret configured, Ana's
freshly issued login token verifies to her identity. -/
theorem missing_secret_sign_verify_roundtrip_witness :
    verifyToken none
        (jwtSign { id := "1", name := "Ana", email := "ana@x.com" }
          (loginRouteSecret none)) =
      some { id := "1", name := "Ana", email := "ana@x.com" } :=
  missing_secret_sign_verify_roundtrip.2.2 [anaUser] (fun _ _ => true)
    "ana@x.com" "pw" { id := "1", name := "Ana", email := "ana@x.com" }
    (jwtSign { id := "1", name := "Ana", email := "ana@x.com" }
      (loginRouteSecret none))
    (by simp [loginPOST, anaUser, List.find?])

end StudyBuddy
